import Mathlib

/-!
Verification of the FhirQueryConverter MCP tool servers.

This file gives a shallow embedding, in Lean, of the three tool servers of
the repository (`action_mcp_server.py`, `cql_mcp_server.py`,
`data_mcp_server.py`): their tool registries, argument handling, live/mock
backend selection, mock adapters, session state and response formatting.
Live backends (Twilio, Databricks, Firemetrics) perform external I/O; they
are modelled as oracle functions passed to `call_tool`, while everything the
servers compute locally is translated definitionally from the Python source.
Theorems at the end settle the specification's claims about these servers.
-/

set_option maxRecDepth 16384

namespace FhirQC

/-- Python `arguments.get(key, default)` over the call's argument mapping
(modelled as an association list, keys unique). -/
def getArg (args : List (String × String)) (key dflt : String) : String :=
  match args.lookup key with
  | some v => v
  | none => dflt

/-- The characters Python's `str.strip()` removes (the `str` whitespace set). -/
def isPySpace (c : Char) : Bool :=
  c = ' ' || c = '\t' || c = '\n' || c = '\r' || c = '\x0b' || c = '\x0c'

/-- Python `s.strip()`: drop leading and trailing whitespace. -/
def pyStrip (s : String) : String :=
  String.mk (((s.toList.dropWhile isPySpace).reverse.dropWhile isPySpace).reverse)

/-- Python `s.lower()` (ASCII case folding, as used on the keyword tests). -/
def pyLower (s : String) : String :=
  String.mk (s.toList.map Char.toLower)

/-- Python `needle in hay` substring containment. -/
def substrOf (needle hay : String) : Prop :=
  needle.toList <:+: hay.toList

instance (n h : String) : Decidable (substrOf n h) := by
  unfold substrOf; infer_instance

/-- Containment survives appending on the right. -/
theorem substrOf_app_right {n a : String} (b : String) (h : substrOf n a) :
    substrOf n (a ++ b) := by
  unfold substrOf at *
  simp only [String.toList, String.data_append]
  exact h.trans (List.prefix_append a.data b.data).isInfix

/-- Containment survives appending on the left. -/
theorem substrOf_app_left {n b : String} (a : String) (h : substrOf n b) :
    substrOf n (a ++ b) := by
  unfold substrOf at *
  simp only [String.toList, String.data_append]
  exact h.trans (List.suffix_append a.data b.data).isInfix

/-- Python `", ".join(xs)`-style separator join. -/
def sepJoin (sep : String) : List String → String
  | [] => ""
  | [x] => x
  | x :: y :: rest => x ++ sep ++ sepJoin sep (y :: rest)

/-- Which backend adapter a call was dispatched to. -/
inductive Adapter
  | live
  | mock
deriving DecidableEq, Repr

/-- One parameter of a tool's declared input schema: its name, whether the
schema marks it required, and its `enum` of allowed values when it has one. -/
structure ParamSchema where
  name : String
  required : Bool
  allowed : Option (List String)
deriving DecidableEq, Repr

/-- One entry of a server's tool registry, as declared by `list_tools`. -/
structure ToolDescriptor where
  name : String
  params : List ParamSchema
deriving DecidableEq, Repr

namespace Action

/-- One message record, as built by `send_sms_real` / `send_sms_mock` and
stored in `SENT_MESSAGES`. Keys a given dict lacks are `none`. -/
structure SendResult where
  status : String
  message_sid : String
  «to» : String
  body : String
  timestamp : String
  note : Option String
  error : Option String
deriving DecidableEq, Repr

/-- The Twilio configuration read from the environment at startup
(`TWILIO_ACCOUNT_SID`, `TWILIO_AUTH_TOKEN`, `TWILIO_FROM_NUMBER`; unset
variables read as the empty string). -/
structure TwilioEnv where
  account_sid : String
  auth_token : String
  from_number : String
deriving DecidableEq, Repr

/-- `send_sms_mock`: builds the simulated result and appends it to
`SENT_MESSAGES`. `nowStamp` is `datetime.now().strftime('%Y%m%d%H%M%S')`,
`nowIso` is `datetime.now().isoformat()`. -/
def send_sms_mock (nowStamp nowIso : String) (phone_number message_body : String)
    (sent : List SendResult) : SendResult × List SendResult :=
  let result : SendResult :=
    ⟨"simulated", "SM_MOCK_" ++ nowStamp, phone_number, message_body, nowIso,
      some "Demo mode - set TWILIO_* env vars to send real SMS", none⟩
  (result, sent ++ [result])

/-- The response `call_tool` renders for a send result (success report with a
Live/Demo mode tag, or the failure report). -/
def formatSendResponse (r : SendResult) : String :=
  if r.status = "sent" ∨ r.status = "simulated" then
    let mode := if r.status = "sent" then "Live" else "Demo"
    let response :=
      "## SMS Notification Sent ✅\n\n**Mode:** " ++ mode ++ "\n**To:** " ++ r.«to»
        ++ "\n**Message SID:** " ++ r.message_sid ++ "\n**Timestamp:** " ++ r.timestamp
        ++ "\n\n### Message Content:\n> " ++ r.body ++ "\n"
    match r.note with
    | some n => if n = "" then response else response ++ "\n*" ++ n ++ "*"
    | none => response
  else
    "## SMS Failed ❌\n\n**To:** " ++ r.«to» ++ "\n**Error:** "
      ++ (r.error.getD "Unknown error")
      ++ "\n\nPlease check:\n1. Phone number format (should be +1XXXXXXXXXX)\n2. Twilio credentials are valid\n3. Twilio account has sufficient balance\n"

/-- One block of the `get_sent_messages` report (`enumerate` index `i`,
body truncated to 50 characters). -/
def formatMessageEntry (i : Nat) (m : SendResult) : String :=
  "### Message " ++ toString i ++ "\n- **To:** " ++ m.«to» ++ "\n- **Status:** "
    ++ m.status ++ "\n- **Time:** " ++ m.timestamp ++ "\n- **Content:** "
    ++ m.body.take 50 ++ (if m.body.length > 50 then "..." else "") ++ "\n\n"

/-- The numbered entry blocks, starting the count at `i`. -/
def formatEntriesFrom (i : Nat) : List SendResult → String
  | [] => ""
  | m :: rest => formatMessageEntry i m ++ formatEntriesFrom (i + 1) rest

/-- The `get_sent_messages` report over the current `SENT_MESSAGES`. -/
def formatSentMessages (msgs : List SendResult) : String :=
  if msgs = [] then
    "## Sent Messages\n\nNo messages have been sent in this session."
  else
    "## Sent Messages (" ++ toString msgs.length ++ " total)\n\n"
      ++ formatEntriesFrom 1 msgs

/-- The action server's tool registry, as `list_tools` declares it. -/
def registry : List ToolDescriptor :=
  [⟨"send_sms_notification",
     [⟨"phone_number", true, none⟩, ⟨"message_body", true, none⟩]⟩,
   ⟨"get_sent_messages", []⟩]

/-- `call_tool` of the action server. `liveSend` is the oracle standing for
`send_sms_real` (a Twilio API call). Returns the rendered response text, the
new `SENT_MESSAGES`, and which backend adapter (if any) was invoked. -/
def call_tool (env : TwilioEnv) (liveSend : String → String → SendResult)
    (nowStamp nowIso : String) (name : String)
    (arguments : List (String × String)) (sent : List SendResult) :
    String × List SendResult × Option Adapter :=
  if name = "send_sms_notification" then
    let phone_number := getArg arguments "phone_number" ""
    let message_body := getArg arguments "message_body" ""
    if phone_number = "" then
      ("## Error\n\n**Error:** Phone number is required", sent, none)
    else if message_body = "" then
      ("## Error\n\n**Error:** Message body is required", sent, none)
    else
      if env.account_sid ≠ "" ∧ env.auth_token ≠ "" then
        (formatSendResponse (liveSend phone_number message_body), sent, some Adapter.live)
      else
        let rs := send_sms_mock nowStamp nowIso phone_number message_body sent
        (formatSendResponse rs.1, rs.2, some Adapter.mock)
  else if name = "get_sent_messages" then
    (formatSentMessages sent, sent, none)
  else
    ("Unknown tool: " ++ name, sent, none)

/-- A process lifetime: the `SENT_MESSAGES` list after a sequence of calls,
each given as (nowStamp, nowIso, tool name, arguments). -/
def runCalls (env : TwilioEnv) (liveSend : String → String → SendResult) :
    List (String × String × String × List (String × String)) →
    List SendResult → List SendResult
  | [], sent => sent
  | c :: rest, sent =>
      runCalls env liveSend rest
        (call_tool env liveSend c.1 c.2.1 c.2.2.1 c.2.2.2 sent).2.1

end Action

namespace Cql

/-- The `diabetes_hba1c_gap` entry of `CQL_TO_SQL_TEMPLATES`. -/
def diabetes_hba1c_gap : String := "
-- Spark SQL: Patients with Diabetes who haven't had HbA1c in 6 months
-- Generated from CQL: DiabetesHbA1cGap measure logic

WITH diabetes_patients AS (
    SELECT DISTINCT
        p.id AS patient_id,
        p.gender,
        FLOOR(DATEDIFF(CURRENT_DATE(), p.birthDate) / 365.25) AS age,
        CONCAT(n.given[0], ' ', n.family) AS patient_name
    FROM patient p
    LATERAL VIEW EXPLODE(p.name) AS n
    WHERE EXISTS (
        SELECT 1 FROM condition c
        WHERE c.subject.reference = CONCAT('Patient/', p.id)
        AND c.code.coding[0].system = 'http://snomed.info/sct'
        AND c.code.coding[0].code IN ('44054006', '46635009', '73211009', '313436004')
        -- SNOMED codes for Type 1, Type 2, Diabetes mellitus, Diabetes unspecified
        AND c.clinicalStatus.coding[0].code = 'active'
    )
),

latest_hba1c AS (
    SELECT
        REPLACE(o.subject.reference, 'Patient/', '') AS patient_id,
        MAX(COALESCE(o.effectiveDateTime, o.issued)) AS last_hba1c_date,
        FIRST(o.valueQuantity.value) AS last_hba1c_value
    FROM observation o
    WHERE o.code.coding[0].code IN ('4548-4', '4549-2', '17856-6')
    -- LOINC codes for HbA1c
    AND o.status = 'final'
    GROUP BY REPLACE(o.subject.reference, 'Patient/', '')
),

risk_stratification AS (
    SELECT
        dp.patient_id,
        dp.patient_name,
        dp.age,
        dp.gender,
        lh.last_hba1c_date,
        lh.last_hba1c_value,
        DATEDIFF(CURRENT_DATE(), lh.last_hba1c_date) AS days_since_last_test,
        CASE
            WHEN lh.last_hba1c_date IS NULL THEN 'CRITICAL'
            WHEN DATEDIFF(CURRENT_DATE(), lh.last_hba1c_date) > 180 THEN 'HIGH'
            WHEN DATEDIFF(CURRENT_DATE(), lh.last_hba1c_date) > 90 THEN 'MODERATE'
            ELSE 'LOW'
        END AS risk_level,
        CASE
            WHEN lh.last_hba1c_value >= 9.0 THEN 'UNCONTROLLED'
            WHEN lh.last_hba1c_value >= 7.0 THEN 'ABOVE_TARGET'
            WHEN lh.last_hba1c_value >= 5.7 THEN 'AT_TARGET'
            ELSE 'NORMAL'
        END AS glycemic_control
    FROM diabetes_patients dp
    LEFT JOIN latest_hba1c lh ON dp.patient_id = lh.patient_id
)

SELECT
    patient_id,
    patient_name,
    age,
    gender,
    last_hba1c_date,
    last_hba1c_value,
    days_since_last_test,
    risk_level,
    glycemic_control,
    CASE
        WHEN risk_level = 'CRITICAL' THEN 100
        WHEN risk_level = 'HIGH' AND glycemic_control = 'UNCONTROLLED' THEN 95
        WHEN risk_level = 'HIGH' THEN 85
        WHEN risk_level = 'MODERATE' AND glycemic_control IN ('UNCONTROLLED', 'ABOVE_TARGET') THEN 70
        WHEN risk_level = 'MODERATE' THEN 50
        ELSE 20
    END AS outreach_priority_score
FROM risk_stratification
WHERE risk_level IN ('CRITICAL', 'HIGH', 'MODERATE')
ORDER BY outreach_priority_score DESC, days_since_last_test DESC
"

/-- The `breast_cancer_screening` entry of `CQL_TO_SQL_TEMPLATES`. -/
def breast_cancer_screening : String := "
-- Spark SQL: CMS125 Breast Cancer Screening Measure
-- Generated from CQL: BreastCancerScreening v2.0.0

WITH initial_population AS (
    SELECT DISTINCT
        p.id AS patient_id,
        p.gender,
        FLOOR(DATEDIFF(DATE('2024-12-31'), p.birthDate) / 365.25) AS age_at_period_end
    FROM patient p
    WHERE p.gender = 'female'
    AND FLOOR(DATEDIFF(DATE('2024-12-31'), p.birthDate) / 365.25) BETWEEN 51 AND 74
),

qualifying_encounters AS (
    SELECT DISTINCT
        REPLACE(e.subject.reference, 'Patient/', '') AS patient_id
    FROM encounter e
    WHERE e.status = 'finished'
    AND e.period.start >= DATE_SUB(DATE('2024-12-31'), 730)
    AND e.type.coding[0].code IN ('99201', '99202', '99203', '99204', '99205',
                                   '99211', '99212', '99213', '99214', '99215')
),

denominator_exclusions AS (
    SELECT DISTINCT
        REPLACE(pr.subject.reference, 'Patient/', '') AS patient_id
    FROM procedure pr
    WHERE pr.code.coding[0].code IN ('27865001', '0HTV0ZZ', '0HTU0ZZ')
    -- Bilateral mastectomy codes
    AND pr.status = 'completed'
),

numerator AS (
    SELECT DISTINCT
        REPLACE(o.subject.reference, 'Patient/', '') AS patient_id,
        o.effectiveDateTime AS mammogram_date
    FROM observation o
    WHERE o.code.coding[0].code IN ('24606-6', '24605-8', '24610-8')
    -- LOINC mammography codes
    AND o.status = 'final'
    AND o.effectiveDateTime >= DATE_SUB(DATE('2024-12-31'), 821)
    -- 27 months lookback
)

SELECT
    ip.patient_id,
    ip.age_at_period_end AS age,
    CASE WHEN qe.patient_id IS NOT NULL THEN 1 ELSE 0 END AS in_denominator,
    CASE WHEN de.patient_id IS NOT NULL THEN 1 ELSE 0 END AS excluded,
    CASE WHEN n.patient_id IS NOT NULL THEN 1 ELSE 0 END AS in_numerator,
    n.mammogram_date AS last_mammogram,
    CASE
        WHEN de.patient_id IS NOT NULL THEN 'EXCLUDED'
        WHEN qe.patient_id IS NULL THEN 'NOT_IN_DENOMINATOR'
        WHEN n.patient_id IS NOT NULL THEN 'MET'
        ELSE 'GAP'
    END AS measure_status
FROM initial_population ip
LEFT JOIN qualifying_encounters qe ON ip.patient_id = qe.patient_id
LEFT JOIN denominator_exclusions de ON ip.patient_id = de.patient_id
LEFT JOIN numerator n ON ip.patient_id = n.patient_id
ORDER BY measure_status, ip.patient_id
"

/-- The tail of the generic fallback template, after the interpolated header. -/
def genericTail : String := "\n
WITH patient_cohort AS (
    SELECT
        p.id AS patient_id,
        CONCAT(n.given[0], ' ', n.family) AS patient_name,
        p.gender,
        p.birthDate,
        FLOOR(DATEDIFF(CURRENT_DATE(), p.birthDate) / 365.25) AS age
    FROM patient p
    LATERAL VIEW EXPLODE(p.name) AS n
    WHERE p.active = true
),

qualifying_conditions AS (
    SELECT
        REPLACE(c.subject.reference, 'Patient/', '') AS patient_id,
        c.code.coding[0].display AS condition_name,
        c.onsetDateTime AS onset_date
    FROM condition c
    WHERE c.clinicalStatus.coding[0].code = 'active'
),

measure_evaluation AS (
    SELECT
        pc.patient_id,
        pc.patient_name,
        pc.age,
        pc.gender,
        qc.condition_name,
        CASE
            WHEN qc.patient_id IS NOT NULL THEN 'IN_MEASURE'
            ELSE 'EXCLUDED'
        END AS measure_status
    FROM patient_cohort pc
    LEFT JOIN qualifying_conditions qc ON pc.patient_id = qc.patient_id
)

SELECT * FROM measure_evaluation
WHERE measure_status = 'IN_MEASURE'
ORDER BY patient_name\n"

/-- The interpolated header of the generic fallback template, followed by
`genericTail`: the full generic CQL-to-SQL translation the `else` branch of
`convert_cql_to_sql` builds. -/
def genericTemplate (cql_logic target_dialect : String) : String :=
  "\n-- Spark SQL: Generated from CQL expression\n-- Target dialect: " ++ target_dialect
    ++ "\n--\n-- Original CQL:\n-- " ++ cql_logic.take 200
    ++ (if cql_logic.length > 200 then "..." else "") ++ genericTail

/-- `convert_cql_to_sql`: keyword dispatch over the lowercased source, first
matching rule wins, generic template otherwise; the result is stripped. -/
def convert_cql_to_sql (cql_logic target_dialect : String) : String :=
  let cql_lower := pyLower cql_logic
  if substrOf "diabetes" cql_lower ∨ substrOf "hba1c" cql_lower ∨ substrOf "a1c" cql_lower then
    pyStrip diabetes_hba1c_gap
  else if substrOf "breast" cql_lower ∨ substrOf "mammog" cql_lower ∨ substrOf "cms125" cql_lower then
    pyStrip breast_cancer_screening
  else
    pyStrip (genericTemplate cql_logic target_dialect)

/-- The result dict of `validate_cql`. Keys a given dict lacks are the empty
list (`errors`) or `none`. -/
structure CqlValidation where
  valid : Bool
  errors : List String
  warnings : Option (List String)
  message : Option String
deriving DecidableEq, Repr

/-- `validate_cql`: empty or all-whitespace input is invalid with a single
error; anything else is valid, missing `define`/`library` only add warnings. -/
def validate_cql (cql_expression : String) : CqlValidation :=
  if cql_expression = "" ∨ pyStrip cql_expression = "" then
    ⟨false, ["CQL expression cannot be empty"], none, none⟩
  else
    let warnings :=
      (if substrOf "define" (pyLower cql_expression) then []
       else ["Consider using 'define' statements for reusable expressions"])
      ++ (if substrOf "library" (pyLower cql_expression) then []
          else ["Missing library declaration - recommended for production CQL"])
    ⟨true, [], if warnings = [] then none else some warnings,
      some "CQL expression is syntactically valid"⟩

/-- The allowed values the registry's `enum` declares for `target_dialect`. -/
def target_dialect_allowed : List String :=
  ["spark-sql", "snowflake", "bigquery", "postgresql"]

/-- The CQL server's tool registry, as `list_tools` declares it. -/
def registry : List ToolDescriptor :=
  [⟨"convert_cql_to_sql",
     [⟨"cql_logic", true, none⟩,
      ⟨"target_dialect", false, some target_dialect_allowed⟩]⟩,
   ⟨"validate_cql", [⟨"cql_expression", true, none⟩]⟩]

/-- The report `call_tool` renders around a finished conversion. -/
def conversionReport (target_dialect sql : String) : String :=
  "## CQL to SQL Conversion Complete\n\n**Target Dialect:** " ++ target_dialect
    ++ "\n**Conversion Status:** Success\n\n### Generated SQL:\n\n```sql\n" ++ sql
    ++ "\n```\n\n### Conversion Notes:\n- CQL clinical logic preserved in SQL CTEs (Common Table Expressions)\n- FHIR resource paths mapped to SQL table/column references\n- Terminology codes (SNOMED, LOINC, ICD) embedded for filtering\n- Risk stratification logic included for patient prioritization\n\n*This SQL is ready for execution on your "
    ++ target_dialect ++ " platform.*\n"

/-- The report `call_tool` renders for a validation result. -/
def validationReport (r : CqlValidation) : String :=
  let status := if r.valid then "Valid" else "Invalid"
  let response := "## CQL Validation Result: " ++ status ++ "\n\n"
  let response :=
    if r.errors ≠ [] then
      response ++ "### Errors:\n"
        ++ String.join (r.errors.map fun e => "- " ++ e ++ "\n")
    else response
  let response :=
    match r.warnings with
    | some ws =>
        if ws ≠ [] then
          response ++ "\n### Warnings:\n"
            ++ String.join (ws.map fun w => "- " ++ w ++ "\n")
        else response
    | none => response
  match r.message with
  | some m => response ++ "\n" ++ m
  | none => response

/-- `call_tool` of the CQL server: dispatch on the tool name, defaulted
argument lookup, then conversion or validation and its report. -/
def call_tool (name : String) (arguments : List (String × String)) : String :=
  if name = "convert_cql_to_sql" then
    let cql_logic := getArg arguments "cql_logic" ""
    let target_dialect := getArg arguments "target_dialect" "spark-sql"
    conversionReport target_dialect (convert_cql_to_sql cql_logic target_dialect)
  else if name = "validate_cql" then
    validationReport (validate_cql (getArg arguments "cql_expression" ""))
  else
    "Unknown tool: " ++ name

end Cql

namespace Data

/-- A value of one cell of a result row (a string, an integer, or Python
`None`), with its `str()` rendering used by the table formatter. -/
inductive CellVal
  | s (v : String)
  | n (v : Int)
  | null
deriving DecidableEq, Repr

/-- Python `str()` of a cell value. -/
def CellVal.pyStr : CellVal → String
  | .s v => v
  | .n v => toString v
  | .null => "None"

/-- One entry of `MOCK_PATIENTS` (patient-001 has no `last_hba1c_value`
key; absent keys are `none`). -/
structure MockPatient where
  PatientID : String
  patient_name : String
  RiskScore : Int
  GapStatus : String
  last_hba1c_date : Option String
  last_hba1c_value : Option ℚ
  glycemic_control : String
  days_overdue : Int
  phone_number : String
  preferred_name : String
  preferred_language : String
  best_contact_time : String
deriving DecidableEq, Repr

/-- The static `MOCK_PATIENTS` fixture. -/
def MOCK_PATIENTS : List MockPatient :=
  [⟨"patient-001", "Maria Garcia", 95, "CRITICAL", none, none, "UNKNOWN", 365,
     "+19176649186", "Maria", "Spanish", "Evening"⟩,
   ⟨"patient-002", "James Wilson", 88, "HIGH", some "2024-03-15", some (92/10),
     "UNCONTROLLED", 260, "+15559876543", "Jim", "English", "Morning"⟩,
   ⟨"patient-003", "Sarah Johnson", 72, "MODERATE", some "2024-06-20", some (78/10),
     "ABOVE_TARGET", 163, "+15551112222", "Sarah", "English", "Afternoon"⟩,
   ⟨"patient-004", "Robert Chen", 65, "MODERATE", some "2024-07-10", some (74/10),
     "ABOVE_TARGET", 143, "+15553334444", "Bob", "English", "Morning"⟩,
   ⟨"patient-005", "Linda Martinez", 55, "MODERATE", some "2024-08-01", some (71/10),
     "ABOVE_TARGET", 121, "+15555556666", "Linda", "Spanish", "Evening"⟩]

/-- The row dict the mock query result builds from one mock patient. -/
def mockRiskRow (p : MockPatient) : List (String × CellVal) :=
  [("PatientID", .s p.PatientID), ("patient_name", .s p.patient_name),
   ("RiskScore", .n p.RiskScore), ("GapStatus", .s p.GapStatus),
   ("last_hba1c_date",
     match p.last_hba1c_date with | some d => .s d | none => .null),
   ("days_overdue", .n p.days_overdue),
   ("glycemic_control", .s p.glycemic_control)]

/-- A query result dict, as the Databricks adapters return it. Keys a given
dict lacks are `none`. -/
structure QueryResult where
  status : String
  source : Option String
  note : Option String
  row_count : Nat
  columns : List String
  data : List (List (String × CellVal))
  message : Option String
  error : Option String
deriving DecidableEq, Repr

/-- `execute_databricks_sql_mock`: keyword inspection of the lowercased
query; patient/risk/gap queries return the fixed synthetic row set, anything
else an empty success. -/
def execute_databricks_sql_mock (sql_query : String) : QueryResult :=
  let sql_lower := pyLower sql_query
  if substrOf "patient" sql_lower ∨ substrOf "risk" sql_lower ∨ substrOf "gap" sql_lower then
    ⟨"success", some "mock_data",
      some "Using mock data - set DATABRICKS_* env vars for real connection",
      MOCK_PATIENTS.length,
      ["PatientID", "patient_name", "RiskScore", "GapStatus",
       "last_hba1c_date", "days_overdue", "glycemic_control"],
      MOCK_PATIENTS.map mockRiskRow, none, none⟩
  else
    ⟨"success", some "mock_data", none, 0, [], [],
      some "Query executed (mock mode - no matching data)", none⟩

/-- A patient-details dict, as the Firemetrics adapters return it. Keys a
given dict lacks are `none`. -/
structure LookupResult where
  patient_id : String
  preferred_name : String
  phone_number : String
  preferred_language : String
  best_contact_time : Option String
  source : Option String
  error : Option String
deriving DecidableEq, Repr

/-- `lookup_patient_details_mock`: exact-key lookup into the static table
(`PATIENT_DETAILS`, keyed by `PatientID`); unmatched ids give `none`. -/
def lookup_patient_details_mock (patient_id : String) : Option LookupResult :=
  match MOCK_PATIENTS.find? (fun p => p.PatientID == patient_id) with
  | some p =>
      some ⟨p.PatientID, p.preferred_name, p.phone_number, p.preferred_language,
        some p.best_contact_time, some "mock_data", none⟩
  | none => none

/-- The environment-variable configuration the data server reads at startup
(unset variables read as the empty string). -/
structure DataEnv where
  databricks_host : String
  databricks_token : String
  databricks_warehouse : String
  databricks_http_path : String
  firemetrics_api_key : String
  firemetrics_db_host : String
deriving DecidableEq, Repr

/-- Python `str(row.get(col, ""))` for one table cell. -/
def cellText (row : List (String × CellVal)) (col : String) : String :=
  match row.lookup col with
  | some v => v.pyStr
  | none => ""

/-- The report `call_tool` renders for a query result: status header, a Demo
mode tag for mock data, and a markdown table of the first 10 rows. -/
def formatQueryResult (r : QueryResult) : String :=
  if r.status = "success" then
    let response :=
      "## Databricks Query Results\n\n**Status:** Success\n**Rows Returned:** "
        ++ toString r.row_count ++ "\n"
    let response :=
      if r.source = some "mock_data" then
        response ++ "**Mode:** Demo (mock data)\n"
      else response
    if r.data ≠ [] then
      response ++ "\n### Results:\n\n| " ++ sepJoin " | " r.columns ++ " |\n| "
        ++ sepJoin " | " (r.columns.map fun _ => "---") ++ " |\n"
        ++ String.join ((r.data.take 10).map fun row =>
            "| " ++ sepJoin " | " (r.columns.map (cellText row)) ++ " |\n")
        ++ (if r.row_count > 10 then
              "\n*...and " ++ toString (r.row_count - 10) ++ " more rows*\n"
            else "")
    else response
  else
    "## Query Error\n\n**Error:** " ++ (r.error.getD "Unknown error")

/-- The report `call_tool` renders for a lookup result: error report, the
details block (with a demo-data note for mock results), or "not found". -/
def formatLookup (patient_id : String) (res : Option LookupResult) : String :=
  match res with
  | some r =>
      match r.error with
      | some e => "## Lookup Error\n\n**Error:** " ++ e
      | none =>
          let response :=
            "## Patient Details (Firemetrics)\n\n**Patient ID:** " ++ r.patient_id
              ++ "\n**Preferred Name:** " ++ r.preferred_name
              ++ "\n**Phone Number:** " ++ r.phone_number
              ++ "\n**Preferred Language:** " ++ r.preferred_language
              ++ "\n**Best Contact Time:** " ++ (r.best_contact_time.getD "Any time")
              ++ "\n"
          if r.source = some "mock_data" then
            response ++ "\n*Using demo data - set FIREMETRICS_* env vars for real connection*"
          else response
  | none => "## Patient Not Found\n\nNo patient found with ID: " ++ patient_id

/-- The data server's tool registry, as `list_tools` declares it. -/
def registry : List ToolDescriptor :=
  [⟨"execute_databricks_sql", [⟨"sql_query", true, none⟩]⟩,
   ⟨"lookup_patient_details", [⟨"patient_id", true, none⟩]⟩]

/-- `call_tool` of the data server. `liveQuery` and `liveLookup` are the
oracles standing for `execute_databricks_sql_real` and
`lookup_patient_details_real` (external connections). Returns the rendered
response text and which backend adapter (if any) was invoked. -/
def call_tool (env : DataEnv) (liveQuery : String → QueryResult)
    (liveLookup : String → Option LookupResult)
    (name : String) (arguments : List (String × String)) :
    String × Option Adapter :=
  if name = "execute_databricks_sql" then
    let sql_query := getArg arguments "sql_query" ""
    if env.databricks_host ≠ "" ∧ env.databricks_token ≠ "" then
      (formatQueryResult (liveQuery sql_query), some Adapter.live)
    else
      (formatQueryResult (execute_databricks_sql_mock sql_query), some Adapter.mock)
  else if name = "lookup_patient_details" then
    let patient_id := getArg arguments "patient_id" ""
    if env.firemetrics_db_host ≠ "" then
      (formatLookup patient_id (liveLookup patient_id), some Adapter.live)
    else
      (formatLookup patient_id (lookup_patient_details_mock patient_id), some Adapter.mock)
  else
    ("Unknown tool: " ++ name, none)

end Data

end FhirQC

namespace FhirQC

theorem substrOf_self (a : String) : substrOf a a := List.infix_rfl

theorem dropWhile_all {p : Char → Bool} {l : List Char} :
    (∀ x ∈ l.dropWhile p, p x) ↔ (∀ x ∈ l, p x) := by
  constructor
  · intro h x hx
    have hx2 : x ∈ l.takeWhile p ++ l.dropWhile p := by
      rw [List.takeWhile_append_dropWhile]; exact hx
    rcases List.mem_append.mp hx2 with h1 | h2
    · exact List.mem_takeWhile_imp h1
    · exact h x h2
  · intro h x hx
    exact h x (List.dropWhile_sublist p |>.mem hx)

theorem pyStrip_empty_iff (s : String) :
    pyStrip s = "" ↔ s.toList.all isPySpace = true := by
  unfold pyStrip
  rw [show ("" : String) = String.mk [] from rfl]
  simp only [String.ext_iff, List.reverse_eq_nil_iff, List.dropWhile_eq_nil_iff,
    List.mem_reverse, List.all_eq_true]
  exact dropWhile_all

theorem empty_or_strip_iff (s : String) :
    (s = "" ∨ pyStrip s = "") ↔ s.toList.all isPySpace = true := by
  constructor
  · rintro (rfl | h)
    · decide
    · exact (pyStrip_empty_iff s).mp h
  · intro h
    exact Or.inr ((pyStrip_empty_iff s).mpr h)

/-- C10: `validate_cql` rejects exactly the empty / all-whitespace inputs,
with the single error "CQL expression cannot be empty"; every other input is
valid (missing `define`/`library` contribute only warnings, never errors). -/
theorem C10_validate_cql_empty_iff (s : String) :
    (Cql.validate_cql s).valid = !(s.toList.all isPySpace)
    ∧ (Cql.validate_cql s).errors
        = (if s.toList.all isPySpace then ["CQL expression cannot be empty"] else []) := by
  unfold Cql.validate_cql
  by_cases h : s = "" ∨ pyStrip s = ""
  · have ha := (empty_or_strip_iff s).mp h
    rw [if_pos h, ha]
    exact ⟨rfl, by simp⟩
  · have ha : s.toList.all isPySpace = false := by
      rcases Bool.eq_false_or_eq_true (s.toList.all isPySpace) with ht | hf
      · exact absurd ((empty_or_strip_iff s).mpr ht) h
      · exact hf
    rw [if_neg h, ha]
    exact ⟨rfl, by simp⟩

/-- C5: the mock query adapter always succeeds; a query mentioning "risk"
(case-insensitively) gets the non-empty synthetic row set whose columns
include RiskScore and GapStatus; a query matching no recognized keyword gets
an empty result with row_count 0. -/
theorem C5_mock_query (q : String) :
    (Data.execute_databricks_sql_mock q).status = "success"
    ∧ (Data.execute_databricks_sql_mock q).error = none
    ∧ (substrOf "risk" (pyLower q) →
        (Data.execute_databricks_sql_mock q).data ≠ []
        ∧ "RiskScore" ∈ (Data.execute_databricks_sql_mock q).columns
        ∧ "GapStatus" ∈ (Data.execute_databricks_sql_mock q).columns
        ∧ (Data.execute_databricks_sql_mock q).row_count = 5)
    ∧ (¬ substrOf "patient" (pyLower q) → ¬ substrOf "risk" (pyLower q) →
        ¬ substrOf "gap" (pyLower q) →
        (Data.execute_databricks_sql_mock q).row_count = 0
        ∧ (Data.execute_databricks_sql_mock q).data = []) := by
  unfold Data.execute_databricks_sql_mock
  by_cases h : substrOf "patient" (pyLower q) ∨ substrOf "risk" (pyLower q)
      ∨ substrOf "gap" (pyLower q)
  · rw [if_pos h]
    exact ⟨rfl, rfl, fun _ => ⟨by decide, by decide, by decide, by decide⟩,
      fun h1 h2 h3 => absurd h (by simp [h1, h2, h3])⟩
  · rw [if_neg h]
    exact ⟨rfl, rfl, fun hr => absurd (Or.inr (Or.inl hr)) h, fun _ _ _ => ⟨rfl, rfl⟩⟩

/-- A fixed oracle standing in for `send_sms_real`, used in closed instances. -/
def Action.dummyLive : String → String → Action.SendResult :=
  fun phone body => ⟨"sent", "SM_LIVE_1", phone, body, "2025-01-01T00:00:00", none, none⟩

/-- C4: an empty `phone_number` or `message_body` makes `send_sms_notification`
return the validation-error report before backend selection: no adapter is
invoked and `SENT_MESSAGES` is unchanged. -/
theorem C4_empty_sms_args (env : Action.TwilioEnv)
    (liveSend : String → String → Action.SendResult) (nowStamp nowIso : String)
    (args : List (String × String)) (sent : List Action.SendResult)
    (h : getArg args "phone_number" "" = "" ∨ getArg args "message_body" "" = "") :
    (Action.call_tool env liveSend nowStamp nowIso "send_sms_notification" args sent).2.1 = sent
    ∧ (Action.call_tool env liveSend nowStamp nowIso "send_sms_notification" args sent).2.2 = none
    ∧ ((Action.call_tool env liveSend nowStamp nowIso "send_sms_notification" args sent).1
         = "## Error\n\n**Error:** Phone number is required"
       ∨ (Action.call_tool env liveSend nowStamp nowIso "send_sms_notification" args sent).1
         = "## Error\n\n**Error:** Message body is required") := by
  unfold Action.call_tool
  by_cases hp : getArg args "phone_number" "" = ""
  · simp [hp]
  · rcases h with h | h
    · exact absurd h hp
    · simp [hp, h]

/-- Closed instance of C4 at a concrete input (no arguments at all). -/
theorem C4_witness :
    (Action.call_tool ⟨"", "", ""⟩ Action.dummyLive "s" "i" "send_sms_notification" [] []).2.1
      = ([] : List Action.SendResult)
    ∧ (Action.call_tool ⟨"", "", ""⟩ Action.dummyLive "s" "i" "send_sms_notification" [] []).2.2
      = none
    ∧ ((Action.call_tool ⟨"", "", ""⟩ Action.dummyLive "s" "i" "send_sms_notification" [] []).1
         = "## Error\n\n**Error:** Phone number is required"
       ∨ (Action.call_tool ⟨"", "", ""⟩ Action.dummyLive "s" "i" "send_sms_notification" [] []).1
         = "## Error\n\n**Error:** Message body is required") :=
  C4_empty_sms_args ⟨"", "", ""⟩ Action.dummyLive "s" "i" [] [] (Or.inl rfl)

/-- C7: a tool name outside a server's registry is answered with the
unknown-tool report on every server; no adapter runs and the action server's
`SENT_MESSAGES` is unchanged. -/
theorem C7_unknown_tool (name : String)
    (ha : name ∉ Action.registry.map ToolDescriptor.name)
    (hc : name ∉ Cql.registry.map ToolDescriptor.name)
    (hd : name ∉ Data.registry.map ToolDescriptor.name) :
    (∀ env liveSend nowStamp nowIso args sent,
        Action.call_tool env liveSend nowStamp nowIso name args sent
          = ("Unknown tool: " ++ name, sent, none))
    ∧ (∀ args, Cql.call_tool name args = "Unknown tool: " ++ name)
    ∧ (∀ env liveQuery liveLookup args,
        Data.call_tool env liveQuery liveLookup name args
          = ("Unknown tool: " ++ name, none)) := by
  simp only [Action.registry, Cql.registry, Data.registry, List.map, List.mem_cons,
    List.not_mem_nil, or_false, not_or] at ha hc hd
  refine ⟨fun env f ns ni args sent => ?_, fun args => ?_, fun env lq ll args => ?_⟩
  · unfold Action.call_tool
    rw [if_neg ha.1, if_neg ha.2]
  · unfold Cql.call_tool
    rw [if_neg hc.1, if_neg hc.2]
  · unfold Data.call_tool
    rw [if_neg hd.1, if_neg hd.2]

/-- Closed instance of C7 at the concrete name "no_such_tool". -/
theorem C7_witness :
    Cql.call_tool "no_such_tool" [] = "Unknown tool: no_such_tool" :=
  (C7_unknown_tool "no_such_tool" (by decide) (by decide) (by decide)).2.1 []

/-- Every action-server call leaves the previous `SENT_MESSAGES` as a prefix
of the new one (the state is append-only). -/
theorem Action.callGrowsState (env : Action.TwilioEnv)
    (liveSend : String → String → Action.SendResult) (nowStamp nowIso name : String)
    (args : List (String × String)) (sent : List Action.SendResult) :
    sent <+: (Action.call_tool env liveSend nowStamp nowIso name args sent).2.1 := by
  unfold Action.call_tool Action.send_sms_mock
  by_cases h1 : name = "send_sms_notification" <;>
    by_cases h2 : getArg args "phone_number" "" = "" <;>
    by_cases h3 : getArg args "message_body" "" = "" <;>
    by_cases h4 : env.account_sid ≠ "" ∧ env.auth_token ≠ "" <;>
    by_cases h5 : name = "get_sent_messages" <;>
    simp [h1, h2, h3, h4, h5, List.prefix_append, List.prefix_refl]

/-- Append-only across any whole sequence of calls. -/
theorem Action.runCallsGrowsState (env : Action.TwilioEnv)
    (liveSend : String → String → Action.SendResult)
    (calls : List (String × String × String × List (String × String))) :
    ∀ sent, sent <+: Action.runCalls env liveSend calls sent := by
  induction calls with
  | nil => intro sent; exact List.prefix_refl _
  | cons c rest ih =>
      intro sent
      exact (Action.callGrowsState env liveSend c.1 c.2.1 c.2.2.1 c.2.2.2 sent).trans
        (ih _)

/-- C8: `get_sent_messages` reports the current `SENT_MESSAGES` without
mutating it or touching a backend, and along any sequence of calls the state
only grows, so repeated reports are monotonically non-decreasing. -/
theorem C8_reporting_readonly_monotone (env : Action.TwilioEnv)
    (liveSend : String → String → Action.SendResult) (nowStamp nowIso : String)
    (args : List (String × String)) (sent : List Action.SendResult) :
    Action.call_tool env liveSend nowStamp nowIso "get_sent_messages" args sent
      = (Action.formatSentMessages sent, sent, none)
    ∧ (∀ name args2, sent <+: (Action.call_tool env liveSend nowStamp nowIso name args2 sent).2.1)
    ∧ (∀ calls, sent <+: Action.runCalls env liveSend calls sent) := by
  refine ⟨rfl, fun name args2 => Action.callGrowsState env liveSend nowStamp nowIso name args2 sent,
    fun calls => Action.runCallsGrowsState env liveSend calls sent⟩

/-- The record `send_sms_mock` builds for the C9 scenario (timestamps are the
call's clock readings). -/
def Action.reminderRecord (nowStamp nowIso : String) : Action.SendResult :=
  ⟨"simulated", "SM_MOCK_" ++ nowStamp, "+15550000000", "Reminder", nowIso,
    some "Demo mode - set TWILIO_* env vars to send real SMS", none⟩

/-- C9: in mock mode (no Twilio credentials), sending to +15550000000 with
body "Reminder" from an empty session succeeds via the mock adapter with a
generated `SM_MOCK_` identifier, appends exactly that one record, and a
subsequent `get_sent_messages` reports exactly that one entry, rendering its
`to` and `body`. -/
theorem C9_mock_send_scenario (liveSend : String → String → Action.SendResult)
    (nowStamp nowIso : String) :
    Action.call_tool ⟨"", "", ""⟩ liveSend nowStamp nowIso "send_sms_notification"
        [("phone_number", "+15550000000"), ("message_body", "Reminder")] []
      = (Action.formatSendResponse (Action.reminderRecord nowStamp nowIso),
         [Action.reminderRecord nowStamp nowIso], some Adapter.mock)
    ∧ (Action.reminderRecord nowStamp nowIso).status = "simulated"
    ∧ (Action.reminderRecord nowStamp nowIso).message_sid = "SM_MOCK_" ++ nowStamp
    ∧ (Action.reminderRecord nowStamp nowIso).«to» = "+15550000000"
    ∧ (Action.reminderRecord nowStamp nowIso).body = "Reminder"
    ∧ substrOf "## SMS Notification Sent"
        (Action.formatSendResponse (Action.reminderRecord nowStamp nowIso))
    ∧ Action.call_tool ⟨"", "", ""⟩ liveSend nowStamp nowIso "get_sent_messages" []
        [Action.reminderRecord nowStamp nowIso]
      = (Action.formatSentMessages [Action.reminderRecord nowStamp nowIso],
         [Action.reminderRecord nowStamp nowIso], none)
    ∧ substrOf "+15550000000"
        (Action.formatSentMessages [Action.reminderRecord nowStamp nowIso])
    ∧ substrOf "Reminder"
        (Action.formatSentMessages [Action.reminderRecord nowStamp nowIso]) := by
  refine ⟨by rfl, rfl, rfl, rfl, rfl, ?_, by rfl, ?_, ?_⟩
  · simp only [Action.formatSendResponse, Action.reminderRecord]
    norm_num
    repeat first
      | exact (by decide)
      | apply substrOf_app_right
  · simp only [Action.formatSentMessages, Action.formatEntriesFrom, Action.formatMessageEntry,
      Action.reminderRecord]
    rw [if_neg (by simp)]
    apply substrOf_app_left
    apply substrOf_app_right
    repeat first
      | exact (by decide)
      | apply substrOf_app_right
  · simp only [Action.formatSentMessages, Action.formatEntriesFrom, Action.formatMessageEntry,
      Action.reminderRecord]
    rw [if_neg (by simp)]
    apply substrOf_app_left
    apply substrOf_app_right
    apply substrOf_app_right
    apply substrOf_app_right
    apply substrOf_app_left
    exact (by decide)

/-- A fixed oracle standing in for `execute_databricks_sql_real`. -/
def Data.dummyLiveQuery : String → Data.QueryResult :=
  fun _ => ⟨"success", none, none, 0, [], [], none, none⟩

/-- A fixed oracle standing in for `lookup_patient_details_real`. -/
def Data.dummyLiveLookup : String → Option Data.LookupResult :=
  fun _ => none

/-- C1 counterexample: on the data server, `execute_databricks_sql` called
with no arguments at all (the required `sql_query` missing) does not return a
validation failure — the mock adapter is invoked and a success report comes
back. -/
theorem C1_cex :
    Data.call_tool ⟨"", "", "", "", "", ""⟩ Data.dummyLiveQuery Data.dummyLiveLookup
        "execute_databricks_sql" []
      = ("## Databricks Query Results\n\n**Status:** Success\n**Rows Returned:** 0\n**Mode:** Demo (mock data)\n",
         some Adapter.mock) := by
  decide

/-- C1 amended: only the action server's `send_sms_notification` rejects a
missing required parameter (the empty-string default trips its validation,
no adapter runs, `SENT_MESSAGES` unchanged); on every other tool the missing
required argument defaults to the empty string and the call proceeds to the
selected backend adapter. -/
theorem C1_missing_required_argument :
    (∀ env liveSend nowStamp nowIso args sent, args.lookup "phone_number" = none →
        Action.call_tool env liveSend nowStamp nowIso "send_sms_notification" args sent
          = ("## Error\n\n**Error:** Phone number is required", sent, none))
    ∧ (∀ env liveQuery liveLookup args, args.lookup "sql_query" = none →
        Data.call_tool env liveQuery liveLookup "execute_databricks_sql" args
          = (if env.databricks_host ≠ "" ∧ env.databricks_token ≠ "" then
               (Data.formatQueryResult (liveQuery ""), some Adapter.live)
             else
               (Data.formatQueryResult (Data.execute_databricks_sql_mock ""),
                some Adapter.mock)))
    ∧ (∀ env liveQuery liveLookup args, args.lookup "patient_id" = none →
        Data.call_tool env liveQuery liveLookup "lookup_patient_details" args
          = (if env.firemetrics_db_host ≠ "" then
               (Data.formatLookup "" (liveLookup ""), some Adapter.live)
             else
               (Data.formatLookup "" (Data.lookup_patient_details_mock ""),
                some Adapter.mock)))
    ∧ (∀ args, args.lookup "cql_logic" = none →
        Cql.call_tool "convert_cql_to_sql" args
          = Cql.conversionReport (getArg args "target_dialect" "spark-sql")
              (Cql.convert_cql_to_sql "" (getArg args "target_dialect" "spark-sql")))
    ∧ (∀ args, args.lookup "cql_expression" = none →
        Cql.call_tool "validate_cql" args
          = Cql.validationReport (Cql.validate_cql "")) := by
  refine ⟨fun env f ns ni args sent h => ?_, fun env lq ll args h => ?_,
    fun env lq ll args h => ?_, fun args h => ?_, fun args h => ?_⟩
  · unfold Action.call_tool
    simp [getArg, h]
  · unfold Data.call_tool
    simp [getArg, h]
  · unfold Data.call_tool
    simp [getArg, h]
  · unfold Cql.call_tool
    simp [getArg, h]
  · unfold Cql.call_tool
    simp [getArg, h]

/-- Closed instance of C1's amended statement: missing `phone_number` on the
action server is rejected with no adapter call. -/
theorem C1_witness :
    Action.call_tool ⟨"", "", ""⟩ Action.dummyLive "s" "i" "send_sms_notification"
        [("message_body", "Hi")] []
      = ("## Error\n\n**Error:** Phone number is required", [], none) :=
  C1_missing_required_argument.1 ⟨"", "", ""⟩ Action.dummyLive "s" "i"
    [("message_body", "Hi")] [] (by decide)

/-- C2 counterexample: "mysql" is outside the declared enum for
`target_dialect`, yet the call proceeds to conversion and returns the success
report; no InvalidValue failure is produced. -/
theorem C2_cex :
    "mysql" ∉ Cql.target_dialect_allowed
    ∧ Cql.call_tool "convert_cql_to_sql" [("cql_logic", "x"), ("target_dialect", "mysql")]
      = Cql.conversionReport "mysql" (Cql.convert_cql_to_sql "x" "mysql")
    ∧ substrOf "**Conversion Status:** Success"
        (Cql.call_tool "convert_cql_to_sql" [("cql_logic", "x"), ("target_dialect", "mysql")]) := by
  refine ⟨by decide, by rfl, ?_⟩
  rw [show Cql.call_tool "convert_cql_to_sql" [("cql_logic", "x"), ("target_dialect", "mysql")]
      = Cql.conversionReport "mysql" (Cql.convert_cql_to_sql "x" "mysql") from rfl]
  unfold Cql.conversionReport
  repeat first
    | exact (by decide)
    | apply substrOf_app_right

/-- C2 amended: the registry declares the enum for `target_dialect`, but
`call_tool` never checks it — every supplied value, inside or outside the
allowed set, is passed through to `convert_cql_to_sql` and the success report
is rendered around the result. -/
theorem C2_enum_not_enforced :
    (∃ t ∈ Cql.registry, t.name = "convert_cql_to_sql"
        ∧ ∃ p ∈ t.params, p.name = "target_dialect"
            ∧ p.required = false
            ∧ p.allowed = some ["spark-sql", "snowflake", "bigquery", "postgresql"])
    ∧ (∀ logic dialect : String,
        Cql.call_tool "convert_cql_to_sql" [("cql_logic", logic), ("target_dialect", dialect)]
          = Cql.conversionReport dialect (Cql.convert_cql_to_sql logic dialect))
    ∧ (∀ logic dialect : String,
        substrOf "**Conversion Status:** Success"
          (Cql.call_tool "convert_cql_to_sql"
            [("cql_logic", logic), ("target_dialect", dialect)])) := by
  refine ⟨by decide, fun logic dialect => ?_, fun logic dialect => ?_⟩
  · unfold Cql.call_tool
    simp [getArg, List.lookup]
  · rw [show Cql.call_tool "convert_cql_to_sql" [("cql_logic", logic), ("target_dialect", dialect)]
        = Cql.conversionReport dialect (Cql.convert_cql_to_sql logic dialect) from by
      unfold Cql.call_tool; simp [getArg, List.lookup]]
    unfold Cql.conversionReport
    apply substrOf_app_right
    apply substrOf_app_right
    apply substrOf_app_right
    apply substrOf_app_right
    apply substrOf_app_left
    exact (by decide)

/-- C3 counterexample: with account SID and auth token set but the
from-number missing (empty), the action server still attempts the Live
adapter, although the full Twilio credential set is incomplete. -/
theorem C3_cex :
    (Action.TwilioEnv.mk "AC_test" "token_test" "").from_number = ""
    ∧ (Action.call_tool ⟨"AC_test", "token_test", ""⟩ Action.dummyLive "s" "i"
        "send_sms_notification" [("phone_number", "+15550000000"), ("message_body", "Hi")]
        []).2.2
      = some Adapter.live := by
  exact ⟨rfl, by decide⟩

/-- C3 amended: the live-vs-mock decision is a pure function of startup
configuration, but each integration checks only a subset of its credential
set: Twilio checks account SID and auth token (not the from-number),
Databricks checks host and token (not warehouse or HTTP path), Firemetrics
checks only the DB host. When the checked subset is incomplete the mock
adapter serves the call, and mock responses carry the demo marker that
integration renders: the SMS report's mode tag reads Demo, the query report
carries "Mode: Demo (mock data)", a found-patient lookup report carries the
"Using demo data" note, and a not-found mock lookup renders the Patient Not
Found report with no demo marker. When the checked subset is complete the
Live adapter is attempted. -/
theorem C3_backend_decision :
    (∀ (env : Action.TwilioEnv) liveSend nowStamp nowIso phone body sent,
        phone ≠ "" → body ≠ "" →
        (Action.call_tool env liveSend nowStamp nowIso "send_sms_notification"
            [("phone_number", phone), ("message_body", body)] sent).2.2
          = some (if env.account_sid ≠ "" ∧ env.auth_token ≠ "" then Adapter.live
                  else Adapter.mock))
    ∧ (∀ (env : Data.DataEnv) liveQuery liveLookup args,
        (Data.call_tool env liveQuery liveLookup "execute_databricks_sql" args).2
          = some (if env.databricks_host ≠ "" ∧ env.databricks_token ≠ "" then Adapter.live
                  else Adapter.mock))
    ∧ (∀ (env : Data.DataEnv) liveQuery liveLookup args,
        (Data.call_tool env liveQuery liveLookup "lookup_patient_details" args).2
          = some (if env.firemetrics_db_host ≠ "" then Adapter.live else Adapter.mock))
    ∧ (∀ (env : Action.TwilioEnv) liveSend nowStamp nowIso phone body sent,
        phone ≠ "" → body ≠ "" → (env.account_sid = "" ∨ env.auth_token = "") →
        substrOf "**Mode:** Demo"
          (Action.call_tool env liveSend nowStamp nowIso "send_sms_notification"
            [("phone_number", phone), ("message_body", body)] sent).1)
    ∧ (∀ (env : Data.DataEnv) liveQuery liveLookup args,
        (env.databricks_host = "" ∨ env.databricks_token = "") →
        substrOf "**Mode:** Demo (mock data)"
          (Data.call_tool env liveQuery liveLookup "execute_databricks_sql" args).1)
    ∧ (∀ (env : Data.DataEnv) liveQuery liveLookup args,
        env.firemetrics_db_host = "" →
        (Data.call_tool env liveQuery liveLookup "lookup_patient_details" args).1
          = Data.formatLookup (getArg args "patient_id" "")
              (Data.lookup_patient_details_mock (getArg args "patient_id" "")))
    ∧ (∀ pid r, Data.lookup_patient_details_mock pid = some r →
        substrOf "*Using demo data - set FIREMETRICS_* env vars for real connection*"
          (Data.formatLookup pid (some r)))
    ∧ (∀ pid : String, Data.formatLookup pid none
        = "## Patient Not Found\n\nNo patient found with ID: " ++ pid) := by
  refine ⟨fun env f ns ni phone body sent hp hb => ?_, fun env lq ll args => ?_,
    fun env lq ll args => ?_, fun env f ns ni phone body sent hp hb hcred => ?_,
    fun env lq ll args hcred => ?_, fun env lq ll args hcred => ?_,
    fun pid r h => ?_, fun pid => rfl⟩
  · unfold Action.call_tool
    simp only [getArg, List.lookup]
    by_cases hc : env.account_sid ≠ "" ∧ env.auth_token ≠ "" <;> simp [hc, hp, hb]
  · unfold Data.call_tool
    by_cases hc : env.databricks_host ≠ "" ∧ env.databricks_token ≠ "" <;> simp [hc]
  · unfold Data.call_tool
    by_cases hc : env.firemetrics_db_host ≠ "" <;> simp [hc]
  · have hc : ¬ (env.account_sid ≠ "" ∧ env.auth_token ≠ "") := by
      rcases hcred with h | h <;> simp [h]
    unfold Action.call_tool
    simp only [getArg, List.lookup]
    simp only [hc, if_false]
    simp [hp, hb, Action.send_sms_mock, Action.formatSendResponse]
    repeat first
      | exact (by decide)
      | apply substrOf_app_right
  · have hc : ¬ (env.databricks_host ≠ "" ∧ env.databricks_token ≠ "") := by
      rcases hcred with h | h <;> simp [h]
    unfold Data.call_tool
    simp [hc]
    unfold Data.execute_databricks_sql_mock
    by_cases hq : substrOf "patient" (pyLower (getArg args "sql_query" ""))
        ∨ substrOf "risk" (pyLower (getArg args "sql_query" ""))
        ∨ substrOf "gap" (pyLower (getArg args "sql_query" "")) <;>
      simp only [hq, if_true, if_false] <;> decide
  · unfold Data.call_tool
    simp [hcred]
  · unfold Data.lookup_patient_details_mock at h
    cases hfind : List.find? (fun p => p.PatientID == pid) Data.MOCK_PATIENTS with
    | none => rw [hfind] at h; simp at h
    | some p =>
        rw [hfind] at h
        injection h with h2
        subst h2
        simp only [Data.formatLookup, if_true]
        apply substrOf_app_left
        decide

/-- A 201-character keyword-free source text: one character longer than the
200-character window the generic template embeds. -/
def Cql.zrun : String := String.mk (List.replicate 201 'z')

/-- C6 counterexample: `zrun` matches no dispatch keyword, yet the returned
generic template does not embed the source text — only its first 200
characters (the output contains 200 consecutive z characters, not 201). -/
theorem C6_cex :
    ¬ (substrOf "diabetes" (pyLower Cql.zrun) ∨ substrOf "hba1c" (pyLower Cql.zrun)
        ∨ substrOf "a1c" (pyLower Cql.zrun))
    ∧ ¬ (substrOf "breast" (pyLower Cql.zrun) ∨ substrOf "mammog" (pyLower Cql.zrun)
        ∨ substrOf "cms125" (pyLower Cql.zrun))
    ∧ ¬ substrOf Cql.zrun (Cql.convert_cql_to_sql Cql.zrun "spark-sql") := by
  refine ⟨by decide, by decide, fun h => ?_⟩
  have hs : List.Sublist Cql.zrun.toList
      (Cql.convert_cql_to_sql Cql.zrun "spark-sql").toList :=
    List.IsInfix.sublist h
  have hle := hs.count_le 'z'
  rw [show Cql.zrun.toList.count 'z' = 201 from by decide,
    show ((Cql.convert_cql_to_sql Cql.zrun "spark-sql").toList.count 'z') = 200 from by decide]
    at hle
  omega

/-- C6 amended: `convert_cql_to_sql` is keyword dispatch in fixed priority
order, first match winning (diabetes/hba1c/a1c before breast/mammog/cms125);
with no match it returns the stripped generic template, which embeds the
target dialect and the first 200 characters of the source text. -/
theorem C6_keyword_dispatch (s d : String) :
    ((substrOf "diabetes" (pyLower s) ∨ substrOf "hba1c" (pyLower s)
        ∨ substrOf "a1c" (pyLower s)) →
      Cql.convert_cql_to_sql s d = pyStrip Cql.diabetes_hba1c_gap)
    ∧ (¬ (substrOf "diabetes" (pyLower s) ∨ substrOf "hba1c" (pyLower s)
          ∨ substrOf "a1c" (pyLower s)) →
        (substrOf "breast" (pyLower s) ∨ substrOf "mammog" (pyLower s)
          ∨ substrOf "cms125" (pyLower s)) →
        Cql.convert_cql_to_sql s d = pyStrip Cql.breast_cancer_screening)
    ∧ (¬ (substrOf "diabetes" (pyLower s) ∨ substrOf "hba1c" (pyLower s)
          ∨ substrOf "a1c" (pyLower s)) →
        ¬ (substrOf "breast" (pyLower s) ∨ substrOf "mammog" (pyLower s)
          ∨ substrOf "cms125" (pyLower s)) →
        Cql.convert_cql_to_sql s d = pyStrip (Cql.genericTemplate s d))
    ∧ substrOf d (Cql.genericTemplate s d)
    ∧ substrOf (s.take 200) (Cql.genericTemplate s d) := by
  refine ⟨fun h1 => ?_, fun h1 h2 => ?_, fun h1 h2 => ?_, ?_, ?_⟩
  · simp only [Cql.convert_cql_to_sql]
    rw [if_pos h1]
  · simp only [Cql.convert_cql_to_sql]
    rw [if_neg h1, if_pos h2]
  · simp only [Cql.convert_cql_to_sql]
    rw [if_neg h1, if_neg h2]
  · unfold Cql.genericTemplate
    apply substrOf_app_right
    apply substrOf_app_right
    apply substrOf_app_right
    apply substrOf_app_right
    apply substrOf_app_left
    exact substrOf_self d
  · unfold Cql.genericTemplate
    apply substrOf_app_right
    apply substrOf_app_right
    apply substrOf_app_left
    exact substrOf_self _

end FhirQC
